import Mathlib

/-!
Verification of the result resolution and aggregation pipeline of the
Quantuzo repository (scripts/run_evaluation.py and scripts/analyze_results.py).

The Python code is shallowly embedded: JSON values become an inductive type,
dictionary access becomes association-list lookup (parsed JSON objects have
unique keys, so first-occurrence lookup agrees with Python dict semantics),
Python `len` becomes a partial-by-Option function (it raises `TypeError` on
numbers, booleans and null), truthiness becomes an explicit predicate, and the
`try/except` blocks of the source become explicit control flow in the
definitions.  Python floats are modelled as exact rationals (ℚ): all the
arithmetic under verification is division and comparison of small decimal
quantities, stated here exactly.
-/

namespace Quantuzo

/-- Model of a parsed JSON value as produced by Python's `json.load`. Object
fields are an association list with unique keys (Python dicts keep one binding
per key), in insertion order. -/
inductive Json where
  | null : Json
  | bool (b : Bool) : Json
  | num (q : ℚ) : Json
  | str (s : String) : Json
  | arr (l : List Json) : Json
  | obj (o : List (String × Json)) : Json

/-- Lookup of a key in a JSON object's field list, mirroring Python's
`d[k]` / `k in d` on dicts: `some v` when the key is bound, `none` otherwise. -/
def getKey (o : List (String × Json)) (k : String) : Option Json :=
  (o.find? (fun p => p.1 == k)).map (fun p => p.2)

/-- Mirror of Python's `d.get(k, default)` on a dict. -/
def getD (o : List (String × Json)) (k : String) (d : Json) : Json :=
  (getKey o k).getD d

/-- Mirror of Python's `len`: defined on strings, lists and dicts, raises
`TypeError` (here: `none`) on numbers, booleans and `None`. -/
def pyLen : Json → Option Nat
  | Json.str s => some s.length
  | Json.arr l => some l.length
  | Json.obj o => some o.length
  | _ => none

/-- Mirror of Python truthiness on JSON values: `None`, `False`, `0`, `""`,
`[]` and `{}` are falsy, everything else truthy. -/
def pyTruthy : Json → Bool
  | Json.null => false
  | Json.bool b => b
  | Json.num q => q != 0
  | Json.str s => s != ""
  | Json.arr l => !l.isEmpty
  | Json.obj o => !o.isEmpty

/-- Resolved/failed/error counters of the evaluation summary
(`results_summary["resolved"|"failed"|"error"]` in run_evaluation.py). -/
structure Counts where
  resolved : Nat
  failed : Nat
  error : Nat
deriving DecidableEq, Repr

/-- Initial counter state (all three counters start at 0,
run_evaluation.py lines 86-88). -/
def Counts.zero : Counts := ⟨0, 0, 0⟩

/-- Structured-report recognition of run_evaluation.py lines 123-145: given
the parsed report JSON, returns the `report_found` flag together with the
counter state after the `try` block.  The three `len(...)` assignments run in
sequence inside a `try`; an exception (from `len` of a non-sized value) leaves
the earlier assignments in place but `report_found` false.  A non-dict report
ends with an exception before any counter assignment (membership tests or
`.get`/subscript raise on non-dict receivers), caught by the same `except`. -/
def resolveReport : Json → Bool × Counts
  | Json.obj o =>
    if (getKey o "resolved_ids").isSome then
      match pyLen (getD o "resolved_ids" (Json.arr [])) with
      | none => (false, Counts.zero)
      | some r =>
        match pyLen (getD o "unresolved_ids" (Json.arr [])) with
        | none => (false, ⟨r, 0, 0⟩)
        | some f =>
          match pyLen (getD o "error_ids" (Json.arr [])) with
          | none => (false, ⟨r, f, 0⟩)
          | some e => (true, ⟨r, f, e⟩)
    else
      match getKey o "resolved" with
      | some (Json.arr l) =>
        (match pyLen (getD o "unresolved" (Json.arr [])) with
         | none => (false, ⟨l.length, 0, 0⟩)
         | some f =>
           match pyLen (getD o "error" (Json.arr [])) with
           | none => (false, ⟨l.length, f, 0⟩)
           | some e => (true, ⟨l.length, f, e⟩))
      | _ => (false, Counts.zero)
  | _ => (false, Counts.zero)

/-- Claim-side helper: length of the list stored under key `k`, with a missing
key counting as the empty list. -/
def listLenAt (o : List (String × Json)) (k : String) : Nat :=
  match getKey o k with
  | some (Json.arr l) => l.length
  | _ => 0

/-- Claim-side helper: the value under key `k`, when present, is a JSON list. -/
def listIfPresent (o : List (String × Json)) (k : String) : Prop :=
  ∀ v, getKey o k = some v → ∃ l, v = Json.arr l

/-- Schema-version-2 example report from the spec:
`resolved_ids=["a","b"], unresolved_ids=["c"], error_ids=[]`. -/
def exSchema2 : List (String × Json) :=
  [("resolved_ids", Json.arr [Json.str "a", Json.str "b"]),
   ("unresolved_ids", Json.arr [Json.str "c"]),
   ("error_ids", Json.arr [])]

/-- Legacy example report from the spec:
`{"resolved":["a"],"unresolved":["b","c"],"error":[]}`. -/
def exLegacy : List (String × Json) :=
  [("resolved", Json.arr [Json.str "a"]),
   ("unresolved", Json.arr [Json.str "b", Json.str "c"]),
   ("error", Json.arr [])]

/-- Helper: when the value under `k` (if any) is a JSON list, Python's
`len(report.get(k, []))` succeeds and returns `listLenAt o k`. -/
theorem pyLen_getD_of_listIfPresent (o : List (String × Json)) (k : String)
    (h : listIfPresent o k) :
    pyLen (getD o k (Json.arr [])) = some (listLenAt o k) := by
  unfold getD listLenAt
  cases hk : getKey o k with
  | none => simp [pyLen]
  | some v =>
    obtain ⟨l, rfl⟩ := h v hk
    simp [pyLen]

/-- C1: for every report the Report Resolver parses, if the JSON object has
key `resolved_ids` (with list-valued count keys), the counts are the list
lengths with missing sibling lists counting as empty; otherwise if it has a
`resolved` key holding a list, counts come from `resolved`/`unresolved`/`error`;
an object with neither shape yields no structured report; and the two concrete
example reports from the spec produce (2,1,0) and (1,2,0). -/
theorem c1_report_resolver :
    (∀ o rs, getKey o "resolved_ids" = some (Json.arr rs) →
       listIfPresent o "unresolved_ids" → listIfPresent o "error_ids" →
       resolveReport (Json.obj o) =
         (true, ⟨rs.length, listLenAt o "unresolved_ids", listLenAt o "error_ids"⟩))
    ∧ (∀ o rs, getKey o "resolved_ids" = none →
       getKey o "resolved" = some (Json.arr rs) →
       listIfPresent o "unresolved" → listIfPresent o "error" →
       resolveReport (Json.obj o) =
         (true, ⟨rs.length, listLenAt o "unresolved", listLenAt o "error"⟩))
    ∧ (∀ o, getKey o "resolved_ids" = none →
       (∀ v, getKey o "resolved" = some v → ∀ l, v ≠ Json.arr l) →
       resolveReport (Json.obj o) = (false, Counts.zero))
    ∧ resolveReport (Json.obj exSchema2) = (true, ⟨2, 1, 0⟩)
    ∧ resolveReport (Json.obj exLegacy) = (true, ⟨1, 2, 0⟩) := by
  refine ⟨?_, ?_, ?_, rfl, rfl⟩
  · intro o rs h h1 h2
    have hr : pyLen (getD o "resolved_ids" (Json.arr [])) = some rs.length := by
      simp [getD, h, pyLen]
    simp only [resolveReport, h, Option.isSome_some, if_true, hr,
      pyLen_getD_of_listIfPresent o "unresolved_ids" h1,
      pyLen_getD_of_listIfPresent o "error_ids" h2]
  · intro o rs h0 h h1 h2
    simp only [resolveReport, h0, Option.isSome_none, Bool.false_eq_true, if_false, h,
      pyLen_getD_of_listIfPresent o "unresolved" h1,
      pyLen_getD_of_listIfPresent o "error" h2]
  · intro o h0 h
    simp only [resolveReport, h0, Option.isSome_none, Bool.false_eq_true, if_false]
    cases hk : getKey o "resolved" with
    | none => rfl
    | some v =>
      cases v with
      | arr l => exact absurd rfl (h _ hk l)
      | null => rfl
      | bool b => rfl
      | num q => rfl
      | str s => rfl
      | obj o2 => rfl

/-- Witness for C1 at the schema-version-2 example report. -/
theorem c1_report_resolver_witness :
    resolveReport (Json.obj exSchema2) = (true, ⟨2, 1, 0⟩) :=
  c1_report_resolver.1 exSchema2 [Json.str "a", Json.str "b"] rfl
    (fun v h => by
      rw [show getKey exSchema2 "unresolved_ids" = some (Json.arr [Json.str "c"]) from rfl] at h
      exact ⟨_, (Option.some.inj h).symm⟩)
    (fun v h => by
      rw [show getKey exSchema2 "error_ids" = some (Json.arr []) from rfl] at h
      exact ⟨_, (Option.some.inj h).symm⟩)

/-- Mirror of Python's substring test `needle in hay` on strings, via char
lists. -/
def pySubstr (needle hay : List Char) : Bool :=
  match hay with
  | [] => needle.isEmpty
  | _ :: t => needle.isPrefixOf hay || pySubstr needle t

/-- Tier-1 result: `report_found` flag and counters after the structured-report
stage (run_evaluation.py lines 103, 123-148); `none` models both "no report
file found" and "report file unreadable/not valid JSON" (the `except` at line
144 leaves the flag false and the counters untouched in that case too). -/
def tier1 (report : Option Json) : Bool × Counts :=
  match report with
  | none => (false, Counts.zero)
  | some j => resolveReport j

/-- One step of the recursive per-instance scan (run_evaluation.py lines
152-175), applied to one recursively found JSON file: `none` is a file that
failed to parse (skipped by the `except`).  Counters change only for dict
contents; for list/string contents the membership test may succeed but the
subsequent `.get`/subscript raises `AttributeError`/`TypeError`, caught by the
per-file `except` before any counter update, and numeric contents raise on the
membership test itself. -/
def tier2step (c : Counts) (f : Option Json) : Counts :=
  match f with
  | some (Json.obj o) =>
    if (getKey o "resolved").isSome then
      if pyTruthy (getD o "resolved" Json.null) then
        { c with resolved := c.resolved + 1 }
      else
        { c with failed := c.failed + 1 }
    else if (getKey o "status").isSome then
      match getKey o "status" with
      | some (Json.str "resolved") => { c with resolved := c.resolved + 1 }
      | some (Json.str "error") => { c with error := c.error + 1 }
      | _ => { c with failed := c.failed + 1 }
    else c
  | _ => c

/-- Counter state after the per-instance scan tier (run_evaluation.py lines
150-175): it runs only when no structured report was recognized and the logs
directory exists. -/
def tier2Counts (found : Bool) (dirEx : Bool) (c : Counts)
    (instFiles : List (Option Json)) : Counts :=
  if !found && dirEx then instFiles.foldl tier2step c else c

/-- One step of the log-text heuristic (run_evaluation.py lines 179-193),
applied to the text of one `run_instance.log` file (`none`: unreadable file,
skipped by the `except`). -/
def tier3step (c : Counts) (content : Option String) : Counts :=
  match content with
  | none => c
  | some s =>
    if pySubstr "Patch Apply Failed".toList s.toList || pySubstr "FAILED".toList s.toList then
      { c with error := c.error + 1 }
    else if pySubstr "PASSED".toList s.toList then
      { c with resolved := c.resolved + 1 }
    else
      { c with failed := c.failed + 1 }

/-- Counter state after the log-text tier (run_evaluation.py lines 177-193):
it runs only when all three counters are still zero. -/
def tier3Counts (c : Counts) (logs : List (Option String)) : Counts :=
  if c.resolved == 0 && c.failed == 0 && c.error == 0 then
    logs.foldl tier3step c
  else c

/-- Full counter pipeline of run_evaluation.py lines 92-193: structured report,
then per-instance scan, then log-text heuristic.  `report` is the parsed
content of the report file located by the directory/pattern search (`none`: no
file found or unreadable), `dirEx` is whether the logs directory exists,
`instFiles` the recursively found JSON files, `logs` the recursively found
`run_instance.log` texts (both lists are empty when the directory is absent,
since globbing a missing directory yields nothing). -/
def buildCounts (report : Option Json) (dirEx : Bool)
    (instFiles : List (Option Json)) (logs : List (Option String)) : Counts :=
  tier3Counts (tier2Counts (tier1 report).1 dirEx (tier1 report).2 instFiles) logs

/-- Resolution-rate formula of run_evaluation.py lines 196-201 (float division
modelled exactly over ℚ). -/
def resolutionRate (resolved total : Nat) : ℚ :=
  if 0 < total then (resolved : ℚ) / (total : ℚ) * 100 else 0

/-- Final results summary assembled by run_evaluation.py lines 80-90 and
196-201: `total_instances` is the number of loaded patches (line 84), the
counters come from the tier pipeline, and the rate from `resolutionRate`. -/
structure ResultsSummary where
  total_instances : Nat
  resolved : Nat
  failed : Nat
  error : Nat
  resolution_rate : ℚ

/-- Assembly of the final summary from the externally supplied patches list
and the evaluation artifacts. -/
def buildResultsSummary (patches : List Json) (report : Option Json)
    (dirEx : Bool) (instFiles : List (Option Json))
    (logs : List (Option String)) : ResultsSummary :=
  let c := buildCounts report dirEx instFiles logs
  ⟨patches.length, c.resolved, c.failed, c.error,
   resolutionRate c.resolved patches.length⟩

/-- Structured report with resolved=0, failed=1: the gating fixture named by
the spec. -/
def exZeroOne : List (String × Json) :=
  [("resolved_ids", Json.arr []),
   ("unresolved_ids", Json.arr [Json.str "c"])]

/-- C4: the per-instance JSON scan runs only when no structured report was
recognized (a recognized report makes tier 2 the identity); the log-text tier
runs only when the prior tiers produced all-zero counts (non-zero counts make
tier 3 the identity); with a recognized structured report the whole pipeline
reduces to the tier-3 gate on the report's counts; and a structured report
yielding resolved=0, failed=1 never triggers log-text scanning: the final
counts are (0,1,0) whatever the logs contain. -/
theorem c4_fallback_gating :
    (∀ dirEx c instFiles, tier2Counts true dirEx c instFiles = c)
    ∧ (∀ c logs, ¬(c.resolved = 0 ∧ c.failed = 0 ∧ c.error = 0) →
        tier3Counts c logs = c)
    ∧ (∀ report dirEx instFiles logs, (tier1 report).1 = true →
        buildCounts report dirEx instFiles logs = tier3Counts (tier1 report).2 logs)
    ∧ (∀ dirEx instFiles logs,
        buildCounts (some (Json.obj exZeroOne)) dirEx instFiles logs = ⟨0, 1, 0⟩) := by
  refine ⟨?_, ?_, ?_, ?_⟩
  · intro dirEx c instFiles
    simp [tier2Counts]
  · intro c logs h
    unfold tier3Counts
    rw [if_neg]
    intro hcond
    simp only [Bool.and_eq_true, beq_iff_eq] at hcond
    exact h ⟨hcond.1.1, hcond.1.2, hcond.2⟩
  · intro report dirEx instFiles logs h
    unfold buildCounts
    rw [h]
    simp [tier2Counts]
  · intro dirEx instFiles logs
    show tier3Counts (tier2Counts true dirEx ⟨0, 1, 0⟩ instFiles) logs = ⟨0, 1, 0⟩
    simp [tier2Counts, tier3Counts]

/-- Witness for C4 at concrete inputs: a recognized report makes the scan tier
the identity, counts (0,1,0) make the log tier the identity, and a recognized
report reduces the pipeline to the tier-3 gate. -/
theorem c4_fallback_gating_witness :
    tier2Counts true true Counts.zero [some (Json.obj [("status", Json.str "resolved")])] = Counts.zero
    ∧ tier3Counts ⟨0, 1, 0⟩ [some "PASSED"] = ⟨0, 1, 0⟩
    ∧ buildCounts (some (Json.obj exZeroOne)) true [] [some "PASSED"] =
        tier3Counts (tier1 (some (Json.obj exZeroOne))).2 [some "PASSED"] :=
  ⟨c4_fallback_gating.1 true Counts.zero _,
   c4_fallback_gating.2.1 ⟨0, 1, 0⟩ _ (by decide),
   c4_fallback_gating.2.2.1 _ true [] _ rfl⟩

/-- C2: the summary's `total_instances` is the number of externally supplied
patches, not a report-derived count; `resolution_rate` is
resolved/total_instances×100 when total_instances>0 and 0 otherwise; and
whenever resolved ≤ total_instances the rate lies within [0,100]. -/
theorem c2_resolution_rate (patches : List Json) (report : Option Json)
    (dirEx : Bool) (instFiles : List (Option Json)) (logs : List (Option String)) :
    (buildResultsSummary patches report dirEx instFiles logs).total_instances = patches.length
    ∧ (buildResultsSummary patches report dirEx instFiles logs).resolution_rate =
        (if 0 < (buildResultsSummary patches report dirEx instFiles logs).total_instances then
          ((buildResultsSummary patches report dirEx instFiles logs).resolved : ℚ)
            / ((buildResultsSummary patches report dirEx instFiles logs).total_instances : ℚ) * 100
        else 0)
    ∧ ((buildResultsSummary patches report dirEx instFiles logs).resolved ≤
        (buildResultsSummary patches report dirEx instFiles logs).total_instances →
       0 ≤ (buildResultsSummary patches report dirEx instFiles logs).resolution_rate
       ∧ (buildResultsSummary patches report dirEx instFiles logs).resolution_rate ≤ 100) := by
  refine ⟨rfl, rfl, ?_⟩
  intro h
  simp only [buildResultsSummary] at h ⊢
  unfold resolutionRate
  by_cases hp : 0 < patches.length
  · rw [if_pos hp]
    have h2 : (0 : ℚ) < (patches.length : ℚ) := by exact_mod_cast hp
    have h1 : ((buildCounts report dirEx instFiles logs).resolved : ℚ) ≤ (patches.length : ℚ) := by
      exact_mod_cast h
    constructor
    · positivity
    · calc ((buildCounts report dirEx instFiles logs).resolved : ℚ) / (patches.length : ℚ) * 100
          ≤ 1 * 100 := by
            apply mul_le_mul_of_nonneg_right _ (by norm_num)
            exact (div_le_one h2).mpr h1
        _ = 100 := by norm_num
  · rw [if_neg hp]
    norm_num

/-- Witness for C2 at a concrete run: two patches, the schema-2 example report
(2 resolved), rate within [0,100]. -/
theorem c2_resolution_rate_witness :
    0 ≤ (buildResultsSummary [Json.null, Json.null] (some (Json.obj exSchema2)) true [] []).resolution_rate
    ∧ (buildResultsSummary [Json.null, Json.null] (some (Json.obj exSchema2)) true [] []).resolution_rate ≤ 100 :=
  (c2_resolution_rate [Json.null, Json.null] (some (Json.obj exSchema2)) true [] []).2.2 (by decide)

/-- Candidate directories of the report search (run_evaluation.py lines
94-99), in source order: the `--report_dir` logs subdirectory, the current
working directory, the run's results directory. -/
inductive SDir where
  | logsDir : SDir
  | cwd : SDir
  | resultsDir : SDir
deriving DecidableEq

/-- Directory priority list (run_evaluation.py line 95). -/
def searchDirs : List SDir := [SDir.logsDir, SDir.cwd, SDir.resultsDir]

/-- Filename patterns of the report search (run_evaluation.py lines 104-109),
in source order: `*.{run_id}.json`, `report.json`, `{run_id}.json`,
`results.json`. -/
inductive Pat where
  | runScoped : Pat
  | reportJson : Pat
  | runIdJson : Pat
  | resultsJson : Pat
deriving DecidableEq

/-- Pattern priority list (run_evaluation.py line 104). -/
def reportPatterns : List Pat := [Pat.runScoped, Pat.reportJson, Pat.runIdJson, Pat.resultsJson]

/-- Inner pattern loop of the search (run_evaluation.py lines 115-119): `glob`
abstracts `search_dir.glob(pattern)`; the first pattern with a non-empty match
list yields its first match and the loop breaks. -/
def findInDir (glob : SDir → Pat → List String) (d : SDir) : List Pat → Option String
  | [] => none
  | p :: rest =>
    match glob d p with
    | [] => findInDir glob d rest
    | f :: _ => some f

/-- Outer directory loop of the search (run_evaluation.py lines 112-121): `ex`
abstracts `search_dir.exists()`; non-existing directories are skipped, and the
outer loop breaks as soon as a file was found. -/
def findReport (ex : SDir → Bool) (glob : SDir → Pat → List String) :
    List SDir → List Pat → Option String
  | [], _ => none
  | d :: rest, pats =>
    if ex d then
      match findInDir glob d pats with
      | some f => some f
      | none => findReport ex glob rest pats
    else findReport ex glob rest pats

/-- Spec-side nested candidate enumeration: for each existing directory in
priority order, for each pattern in priority order, the glob's match list. -/
def candidateLists (ex : SDir → Bool) (glob : SDir → Pat → List String)
    (dirs : List SDir) (pats : List Pat) : List (List String) :=
  (dirs.filter ex).flatMap (fun d => pats.map (fun p => glob d p))

/-- Spec-side first-match rule: the first non-empty match list across the
nested search contributes its first file; the search never looks further. -/
def firstMatch : List (List String) → Option String
  | [] => none
  | [] :: rest => firstMatch rest
  | (f :: _) :: _ => some f

/-- Helper: `firstMatch` splits along list append as a short-circuit. -/
theorem firstMatch_append (a b : List (List String)) :
    firstMatch (a ++ b) =
      (match firstMatch a with
       | some f => some f
       | none => firstMatch b) := by
  induction a with
  | nil => simp [firstMatch]
  | cons x rest ih =>
    cases x with
    | nil => simpa [firstMatch] using ih
    | cons f t => simp [firstMatch]

/-- Helper: the inner pattern loop is the first-match rule over the pattern
match lists of one directory. -/
theorem findInDir_eq_firstMatch (glob : SDir → Pat → List String) (d : SDir)
    (pats : List Pat) :
    findInDir glob d pats = firstMatch (pats.map (fun p => glob d p)) := by
  induction pats with
  | nil => rfl
  | cons p rest ih =>
    simp only [findInDir, List.map_cons]
    cases hg : glob d p with
    | nil => simpa [firstMatch] using ih
    | cons f t => simp [firstMatch]

/-- Helper: the full nested search equals the first-match rule over the nested
(directory × pattern) candidate enumeration. -/
theorem findReport_eq_firstMatch (ex : SDir → Bool) (glob : SDir → Pat → List String)
    (dirs : List SDir) (pats : List Pat) :
    findReport ex glob dirs pats = firstMatch (candidateLists ex glob dirs pats) := by
  induction dirs with
  | nil => rfl
  | cons d rest ih =>
    by_cases hd : ex d
    · simp only [findReport, hd, if_true, candidateLists, List.filter_cons, List.flatMap_cons,
        firstMatch_append, ← findInDir_eq_firstMatch]
      cases findInDir glob d pats with
      | none => simpa [candidateLists] using ih
      | some f => rfl
    · simp only [findReport, hd, if_false, candidateLists, List.filter_cons]
      simpa [candidateLists] using ih

/-- Conflicting fixture from the spec: in the first searched directory both a
run-scoped report (matching `*.{run_id}.json`) and a generic `report.json`
exist. -/
def conflictGlob : SDir → Pat → List String
  | SDir.logsDir, Pat.runScoped => ["model.run1.json"]
  | SDir.logsDir, Pat.reportJson => ["report.json"]
  | _, _ => []

/-- C3: the report search equals the first-match rule over the nested
(directory × pattern) enumeration — outer loop over the fixed directory
priority list, inner loop over the fixed pattern priority list, stopping at the
first non-empty match; in particular, with both a run-scoped report and a
generic report.json in the first searched directory, the run-scoped file
wins. -/
theorem c3_report_search (ex : SDir → Bool) (glob : SDir → Pat → List String) :
    findReport ex glob searchDirs reportPatterns =
      firstMatch (candidateLists ex glob searchDirs reportPatterns)
    ∧ findReport (fun _ => true) conflictGlob searchDirs reportPatterns =
        some "model.run1.json" :=
  ⟨findReport_eq_firstMatch ex glob searchDirs reportPatterns, rfl⟩

/-- Content of one on-disk JSON artifact as seen by a reader: the file is
absent, present but not valid JSON, or parses to a JSON value. -/
inductive FileContent where
  | absent : FileContent
  | malformed : FileContent
  | parsed (j : Json) : FileContent

/-- Normalized result summary dict built by extract_swebench_results
(analyze_results.py lines 28-33); the four values are whatever JSON values the
artifact holds, with `data.get` defaults 0/0/0/0.0 for missing keys. -/
structure SweSummary where
  total : Json
  resolved : Json
  failed : Json
  rate : Json

/-- Outcome of the extractor as observed by its caller: `noResult` is Python
`None`, `summary` a dict, `pyError` an exception escaping the function (the
`except` clause catches only `json.JSONDecodeError` and `KeyError`). -/
inductive ExtractOutcome where
  | noResult : ExtractOutcome
  | summary (s : SweSummary) : ExtractOutcome
  | pyError : ExtractOutcome

/-- Embedding of extract_swebench_results (analyze_results.py lines 18-35):
absent file → None; unparsable JSON → `json.JSONDecodeError`, caught → None;
parsed object → summary dict via `data.get` with defaults (`KeyError` can
never be raised, every access uses `.get`); parsed non-object →
`AttributeError` on `.get`, which the `except` does not catch. -/
def extract_swebench_results (fc : FileContent) : ExtractOutcome :=
  match fc with
  | FileContent.absent => ExtractOutcome.noResult
  | FileContent.malformed => ExtractOutcome.noResult
  | FileContent.parsed (Json.obj o) =>
      ExtractOutcome.summary
        ⟨getD o "total_instances" (Json.num 0),
         getD o "resolved" (Json.num 0),
         getD o "failed" (Json.num 0),
         getD o "resolution_rate" (Json.num 0)⟩
  | FileContent.parsed _ => ExtractOutcome.pyError

/-- Counterexample to C5: an evaluation_results.json parsing to the empty
object is missing every expected field, yet the extractor returns a
default-filled summary, not "no result" — contradicting the claim that a
missing expected field yields None. -/
theorem c5_counterexample :
    extract_swebench_results (FileContent.parsed (Json.obj [])) =
      ExtractOutcome.summary ⟨Json.num 0, Json.num 0, Json.num 0, Json.num 0⟩
    ∧ extract_swebench_results (FileContent.parsed (Json.obj [])) ≠
        ExtractOutcome.noResult := by
  refine ⟨rfl, ?_⟩
  intro h
  exact ExtractOutcome.noConfusion h

/-- C5 amended: the extractor signals "no result" (None) exactly when the
per-run summary artifact is absent or is malformed JSON; a missing expected
field is filled with the default 0 (0.0 for the rate), producing a summary
rather than None. -/
theorem c5_extractor_amended (fc : FileContent) :
    extract_swebench_results fc = ExtractOutcome.noResult ↔
      (fc = FileContent.absent ∨ fc = FileContent.malformed) := by
  cases fc with
  | absent => simp [extract_swebench_results]
  | malformed => simp [extract_swebench_results]
  | parsed j => cases j <;> simp [extract_swebench_results]

/-- Run entry as consumed by print_swebench_table (analyze_results.py lines
127-172), restricted to the fields the table logic reads: the numeric
resolution rate (`r["results"].get("rate", 0)`; rates are floats produced by
the extractor — a non-numeric rate would make Python's `sorted` raise and is
outside every claim) and the two cache-type tags from the inference config
(string tags per the metadata interface; an absent tag is any placeholder
string different from "f16", which preserves the baseline test `== "f16"`). -/
structure REntry where
  run_id : String
  rate : ℚ
  kv_k : String
  kv_v : String
deriving DecidableEq

/-- Sort comparison of the table: descending by rate (Python
`sorted(key=rate, reverse=True)` is a stable descending sort). -/
def rateLE (a b : REntry) : Bool := decide (b.rate ≤ a.rate)

/-- Rate-descending display order of the table (analyze_results.py line
133). -/
def sortedResults (l : List REntry) : List REntry := l.mergeSort rateLE

/-- Baseline test of analyze_results.py line 139: both cache-type tags equal
"f16". -/
def isF16 (e : REntry) : Bool := e.kv_k == "f16" && e.kv_v == "f16"

/-- Baseline selection of analyze_results.py lines 136-145: the first f16/f16
entry of the rate-sorted list, else the first (highest-rate) entry of the
sorted list, else none (empty group). -/
def baselineRate (l : List REntry) : Option ℚ :=
  match (sortedResults l).find? isF16 with
  | some r => some r.rate
  | none => (sortedResults l).head?.map (fun e => e.rate)

/-- Delta column of analyze_results.py lines 164-169: `some d` models the
numerically displayed signed delta, `none` the neutral marker "-". Shown
numerically exactly when the baseline rate is present and positive and the
absolute delta exceeds 0.01. -/
def deltaDisplay : ℚ → Option ℚ → Option ℚ
  | rate, some v =>
    if 0 < v then
      (if 1 / 100 < |rate - v| then some (rate - v) else none)
    else none
  | _, none => none

/-- Helper: the table's sort comparison is transitive. -/
theorem rateLE_trans : ∀ (a b c : REntry), rateLE a b → rateLE b c → rateLE a c := by
  intro a b c hab hbc
  simp only [rateLE, decide_eq_true_eq] at hab hbc ⊢
  exact le_trans hbc hab

/-- Helper: the table's sort comparison is total. -/
theorem rateLE_total : ∀ (a b : REntry), rateLE a b || rateLE b a := by
  intro a b
  simp only [rateLE]
  rcases le_total a.rate b.rate with h | h
  · simp [h]
  · simp [h]

/-- Helper: the display order is rate-descending (pairwise ≥). -/
theorem sortedResults_pairwise (l : List REntry) :
    (sortedResults l).Pairwise (fun a b => b.rate ≤ a.rate) := by
  have h := List.sorted_mergeSort rateLE_trans rateLE_total l
  exact h.imp (fun hab => by simpa [rateLE, decide_eq_true_eq] using hab)

/-- Helper: in a rate-descending list, the first element satisfying a
predicate has maximal rate among the elements satisfying it. -/
theorem find_first_rate_max {l : List REntry}
    (hs : l.Pairwise (fun a b => b.rate ≤ a.rate)) {p : REntry → Bool} {a : REntry}
    (ha : l.find? p = some a) : ∀ b ∈ l, p b = true → b.rate ≤ a.rate := by
  induction l with
  | nil => simp at ha
  | cons x t ih =>
    rcases List.pairwise_cons.mp hs with ⟨hx, ht⟩
    by_cases hpx : p x = true
    · rw [List.find?_cons_of_pos t hpx] at ha
      cases ha
      intro b hb _
      rcases List.mem_cons.mp hb with rfl | hbt
      · exact le_refl _
      · exact hx b hbt
    · rw [List.find?_cons_of_neg t hpx] at ha
      intro b hb hpb
      rcases List.mem_cons.mp hb with rfl | hbt
      · exact absurd hpb hpx
      · exact ih ht ha b hbt hpb

/-- Helper: in a rate-descending list, the head has maximal rate. -/
theorem head_rate_max {l : List REntry}
    (hs : l.Pairwise (fun a b => b.rate ≤ a.rate)) {a : REntry}
    (ha : l.head? = some a) : ∀ b ∈ l, b.rate ≤ a.rate := by
  cases l with
  | nil => simp at ha
  | cons x t =>
    cases ha
    intro b hb
    rcases List.mem_cons.mp hb with rfl | hbt
    · exact le_refl _
    · exact (List.pairwise_cons.mp hs).1 b hbt

/-- Helper: concrete baseline computation for the three-run group with kv
configs (f16/f16 rate 10, f16/f16 rate 50, q4/q4 rate 60). -/
theorem baselineRate_c6ex :
    baselineRate [⟨"r1", 10, "f16", "f16"⟩, ⟨"r2", 50, "f16", "f16"⟩, ⟨"r3", 60, "q4", "q4"⟩] =
      some 50 := by
  have hsort : sortedResults
      [⟨"r1", 10, "f16", "f16"⟩, ⟨"r2", 50, "f16", "f16"⟩, ⟨"r3", 60, "q4", "q4"⟩] =
      [⟨"r3", 60, "q4", "q4"⟩, ⟨"r2", 50, "f16", "f16"⟩, ⟨"r1", 10, "f16", "f16"⟩] := by
    simp [sortedResults, List.mergeSort, rateLE]
    norm_num [List.merge, rateLE]
  unfold baselineRate
  rw [hsort]
  rfl

/-- Counterexample to C6: with original order (f16/f16 rate 10, f16/f16 rate
50, q4/q4 rate 60), the code's baseline is the first f16/f16 entry of the
RATE-SORTED list — rate 50 — not the first f16/f16 entry by original order
(rate 10) as the claim states. -/
theorem c6_counterexample :
    baselineRate [⟨"r1", 10, "f16", "f16"⟩, ⟨"r2", 50, "f16", "f16"⟩, ⟨"r3", 60, "q4", "q4"⟩] =
      some 50
    ∧ (50 : ℚ) ≠ 10 :=
  ⟨baselineRate_c6ex, by norm_num⟩

/-- C6 amended: within each benchmark group, the displayed entries are sorted
by rate descending (a stable permutation of the group: any pair already in
weakly descending order keeps its relative order); the baseline rate, when an
f16/f16 entry exists, is the MAXIMAL rate among f16/f16 entries (the first
f16/f16 entry of the sorted order); when no f16/f16 entry exists it is the
maximal rate of the whole non-empty group; with the spec's three-run example
where the two f16/f16 entries tie at rate 50 and q4/q4 has rate 60, the
f16/f16 rate 50 is chosen even though it is not the highest. -/
theorem c6_baseline_amended (l : List REntry) :
    (sortedResults l).Perm l
    ∧ (sortedResults l).Pairwise (fun a b => b.rate ≤ a.rate)
    ∧ (∀ a b, rateLE a b = true → List.Sublist [a, b] l →
        List.Sublist [a, b] (sortedResults l))
    ∧ (∀ b, baselineRate l = some b →
        (∃ e ∈ l, isF16 e = true) →
        ∃ e ∈ l, isF16 e = true ∧ e.rate = b ∧ ∀ e2 ∈ l, isF16 e2 = true → e2.rate ≤ b)
    ∧ ((∀ e ∈ l, isF16 e = false) → ∀ b, baselineRate l = some b → ∀ e ∈ l, e.rate ≤ b)
    ∧ (l ≠ [] → ∃ b, baselineRate l = some b)
    ∧ baselineRate [⟨"a", 50, "f16", "f16"⟩, ⟨"b", 50, "f16", "f16"⟩, ⟨"c", 60, "q4", "q4"⟩] =
        some 50 := by
  have hperm : (sortedResults l).Perm l := List.mergeSort_perm l rateLE
  have hpw := sortedResults_pairwise l
  have hsort2 : sortedResults
      [⟨"a", 50, "f16", "f16"⟩, ⟨"b", 50, "f16", "f16"⟩, ⟨"c", 60, "q4", "q4"⟩] =
      [⟨"c", 60, "q4", "q4"⟩, ⟨"a", 50, "f16", "f16"⟩, ⟨"b", 50, "f16", "f16"⟩] := by
    simp [sortedResults, List.mergeSort, rateLE]
    norm_num [List.merge, rateLE]
  refine ⟨hperm, hpw, ?_, ?_, ?_, ?_, by unfold baselineRate; rw [hsort2]; rfl⟩
  · intro a b hab hsub
    exact List.pair_sublist_mergeSort rateLE_trans rateLE_total hab hsub
  · intro b hb hex
    unfold baselineRate at hb
    cases hf : (sortedResults l).find? isF16 with
    | some r =>
      rw [hf] at hb
      cases hb
      refine ⟨r, hperm.mem_iff.mp (List.mem_of_find?_eq_some hf),
        List.find?_some hf, rfl, ?_⟩
      intro e2 he2 hf16
      exact find_first_rate_max hpw hf e2 (hperm.mem_iff.mpr he2) hf16
    | none =>
      obtain ⟨e, hel, hef⟩ := hex
      have := List.find?_eq_none.mp hf e (hperm.mem_iff.mpr hel)
      simp [hef] at this
  · intro hall b hb e he
    unfold baselineRate at hb
    cases hf : (sortedResults l).find? isF16 with
    | some r =>
      have hr := hall r (hperm.mem_iff.mp (List.mem_of_find?_eq_some hf))
      have := List.find?_some hf
      rw [hr] at this
      exact absurd this (by simp)
    | none =>
      rw [hf] at hb
      cases hh : (sortedResults l).head? with
      | none => rw [hh] at hb; simp at hb
      | some a =>
        rw [hh] at hb
        simp only [Option.map_some] at hb
        cases hb
        exact head_rate_max hpw hh e (hperm.mem_iff.mpr he)
  · intro hne
    unfold baselineRate
    cases hf : (sortedResults l).find? isF16 with
    | some r => exact ⟨r.rate, rfl⟩
    | none =>
      cases hh : (sortedResults l).head? with
      | none =>
        have : sortedResults l = [] := List.head?_eq_none_iff.mp hh
        have hlen := hperm.length_eq
        rw [this] at hlen
        exact absurd (List.length_eq_zero.mp hlen.symm) hne
      | some a => exact ⟨a.rate, rfl⟩

/-- Witness for C6 amended at the counterexample group: the baseline 50 is an
f16/f16 entry's rate, maximal among f16/f16 entries. -/
theorem c6_baseline_amended_witness :
    ∃ e ∈ [REntry.mk "r1" 10 "f16" "f16", REntry.mk "r2" 50 "f16" "f16",
            REntry.mk "r3" 60 "q4" "q4"], isF16 e = true ∧ e.rate = 50 ∧
      ∀ e2 ∈ [REntry.mk "r1" 10 "f16" "f16", REntry.mk "r2" 50 "f16" "f16",
               REntry.mk "r3" 60 "q4" "q4"], isF16 e2 = true → e2.rate ≤ 50 :=
  (c6_baseline_amended _).2.2.2.1 50 baselineRate_c6ex
    ⟨⟨"r2", 50, "f16", "f16"⟩, by simp, rfl⟩

/-- Counterexample to C7: with entry rate 50.01 and baseline rate 50 the
absolute delta is exactly the epsilon 0.01, which is NOT below 0.01, yet the
code shows the neutral marker (its numeric condition is strict `>`); the claim
predicts a numeric delta here. -/
theorem c7_counterexample :
    deltaDisplay (5001 / 100) (some 50) = none
    ∧ ¬(|(5001 : ℚ) / 100 - 50| < 1 / 100)
    ∧ (0 : ℚ) < 50 := by
  have habs : |(5001 : ℚ) / 100 - 50| = 1 / 100 := by
    rw [show (5001 : ℚ) / 100 - 50 = 1 / 100 by norm_num]
    exact abs_of_pos (by norm_num)
  refine ⟨?_, ?_, by norm_num⟩
  · simp only [deltaDisplay]
    rw [if_pos (by norm_num), habs, if_neg (lt_irrefl _)]
  · rw [habs]
    exact lt_irrefl _

/-- C7 amended: the delta column shows the signed numeric value entry.rate −
baseline.rate exactly when the baseline rate is present and positive and the
absolute delta EXCEEDS the epsilon 0.01; it shows the neutral marker when the
absolute delta is at most 0.01 or no positive baseline rate is available; the
spec's example rates 50.00 and 50.009 against baseline 50 both show the
neutral marker. -/
theorem c7_delta_amended (rate : ℚ) (b : Option ℚ) :
    (deltaDisplay rate b = none ↔ (∀ v, b = some v → v ≤ 0 ∨ |rate - v| ≤ 1 / 100))
    ∧ (∀ v, b = some v → 0 < v → 1 / 100 < |rate - v| →
        deltaDisplay rate b = some (rate - v))
    ∧ deltaDisplay (50009 / 1000) (some 50) = none
    ∧ deltaDisplay 50 (some 50) = none := by
  refine ⟨?_, ?_, ?_, ?_⟩
  · cases b with
    | none => simp [deltaDisplay]
    | some v =>
      simp only [deltaDisplay]
      by_cases hv : 0 < v
      · rw [if_pos hv]
        by_cases hd : 1 / 100 < |rate - v|
        · rw [if_pos hd]
          constructor
          · intro h
            exact absurd h (by simp)
          · intro h
            rcases h v rfl with h1 | h1
            · exact absurd hv (not_lt.mpr h1)
            · exact absurd hd (not_lt.mpr h1)
        · rw [if_neg hd]
          refine ⟨fun _ v2 hv2 => ?_, fun _ => rfl⟩
          cases Option.some.inj hv2
          exact Or.inr (not_lt.mp hd)
      · rw [if_neg hv]
        refine ⟨fun _ v2 hv2 => ?_, fun _ => rfl⟩
        cases Option.some.inj hv2
        exact Or.inl (not_lt.mp hv)
  · intro v hv h0 hd
    cases hv
    simp only [deltaDisplay]
    rw [if_pos h0, if_pos hd]
  · have habs2 : |(50009 : ℚ) / 1000 - 50| = 9 / 1000 := by
      rw [show (50009 : ℚ) / 1000 - 50 = 9 / 1000 by norm_num]
      exact abs_of_pos (by norm_num)
    simp only [deltaDisplay]
    rw [if_pos (by norm_num), habs2, if_neg (by norm_num)]
  · simp only [deltaDisplay]
    rw [if_pos (by norm_num), show (50 : ℚ) - 50 = 0 by norm_num, abs_zero,
      if_neg (by norm_num)]

/-- Witness for C7 amended: entry rate 60 against baseline 50 shows the
numeric delta +10.0. -/
theorem c7_delta_amended_witness :
    deltaDisplay 60 (some 50) = some (60 - 50) :=
  (c7_delta_amended 60 (some 50)).2.1 50 rfl (by norm_num) (by norm_num)

/-- Run entry as built by load_all_results (analyze_results.py lines 96-106):
metadata fields with their `.get` defaults, the extractor's results dict, the
dataset and the originating directory path.  The benchmark identifier is the
group key of GroupedResults (always a registered string). -/
structure RunEntry where
  run_id : Json
  timestamp : Json
  contributor : Json
  model : Json
  inference : Json
  results : Json
  dataset : Json
  run_dir : String

/-- GroupedResults: benchmark identifier → ordered entries, key order and
entry order both being insertion order (Python dicts and lists preserve
insertion order). -/
abbrev Grouped := List (String × List RunEntry)

/-- Flattened export entry of export_json (analyze_results.py lines 227-235):
the seven exported fields. -/
structure ExportEntry where
  benchmark : String
  run_id : Json
  timestamp : Json
  contributor : Json
  model : Json
  inference : Json
  results : Json

/-- Flattening step of export_json (analyze_results.py lines 224-235):
iterate groups in insertion order, entries in insertion order. -/
def flattenExport (g : Grouped) : List ExportEntry :=
  g.flatMap (fun p => p.2.map (fun r =>
    ⟨p.1, r.run_id, r.timestamp, r.contributor, r.model, r.inference, r.results⟩))

/-- Serialization of one flattened entry to a JSON object (the dict literal of
analyze_results.py lines 227-235, keys in source order). -/
def exportEntryToJson (e : ExportEntry) : Json :=
  Json.obj [("benchmark", Json.str e.benchmark), ("run_id", e.run_id),
            ("timestamp", e.timestamp), ("contributor", e.contributor),
            ("model", e.model), ("inference", e.inference),
            ("results", e.results)]

/-- JSON value written by export_json: the array of serialized flattened
entries (`json.dump` of that value; file round-tripping is modelled at the
JSON-value level). -/
def exportJsonValue (g : Grouped) : Json :=
  Json.arr ((flattenExport g).map exportEntryToJson)

/-- Re-parsing of one exported object back into a flattened entry. -/
def parseExportEntry (j : Json) : Option ExportEntry :=
  match j with
  | Json.obj o =>
    match getKey o "benchmark", getKey o "run_id", getKey o "timestamp",
        getKey o "contributor", getKey o "model", getKey o "inference",
        getKey o "results" with
    | some (Json.str b), some rid, some ts, some c, some m, some inf, some res =>
        some ⟨b, rid, ts, c, m, inf, res⟩
    | _, _, _, _, _, _, _ => none
  | _ => none

/-- Re-parsing of the exported file: an array whose every element parses. -/
def parseExport (j : Json) : Option (List ExportEntry) :=
  match j with
  | Json.arr l => l.mapM parseExportEntry
  | _ => none

/-- Helper: parsing inverts serialization on one flattened entry. -/
theorem parseExportEntry_toJson (e : ExportEntry) :
    parseExportEntry (exportEntryToJson e) = some e := by
  cases e
  rfl

/-- Helper: mapM over a serialized list recovers the list. -/
theorem mapM_parse_map_toJson (l : List ExportEntry) :
    (l.map exportEntryToJson).mapM parseExportEntry = some l := by
  induction l with
  | nil => rfl
  | cons e t ih =>
    rw [List.map_cons, List.mapM_cons, parseExportEntry_toJson, ih]
    rfl

/-- C8: re-parsing the JSON export of a GroupedResults value yields exactly
the flattened entry list — as many objects as there are run entries in total,
each with the benchmark, run_id, timestamp, contributor, model, inference and
results of the corresponding in-memory entry, in order. -/
theorem c8_export_roundtrip (g : Grouped) :
    parseExport (exportJsonValue g) = some (flattenExport g)
    ∧ (flattenExport g).length = (g.map (fun p => p.2.length)).sum
    ∧ flattenExport g = g.flatMap (fun p => p.2.map (fun r =>
        ⟨p.1, r.run_id, r.timestamp, r.contributor, r.model, r.inference, r.results⟩)) := by
  refine ⟨?_, ?_, rfl⟩
  · show (((flattenExport g).map exportEntryToJson).mapM parseExportEntry) =
      some (flattenExport g)
    exact mapM_parse_map_toJson _
  · unfold flattenExport
    induction g with
    | nil => rfl
    | cons p t ih =>
      rw [List.flatMap_cons, List.map_cons, List.sum_cons, List.length_append,
        List.length_map, ih]

/-- Registered benchmark identifiers of the Extractor Registry
(analyze_results.py lines 40-45); all four map to the same SWE-bench
extractor. -/
def benchmarkKeys : List String :=
  ["swe-bench", "swe-bench-lite", "swe-bench-full", "swe-bench-verified"]

/-- Serialization of the extractor's summary into the entry's results value
(the dict literal of analyze_results.py lines 28-33). -/
def sweSummaryToJson (s : SweSummary) : Json :=
  Json.obj [("total", s.total), ("resolved", s.resolved),
            ("failed", s.failed), ("rate", s.rate)]

/-- Embedding of load_metadata (analyze_results.py lines 52-62): absent file
→ None, unreadable or unparsable file → None (the `except` catches
`json.JSONDecodeError` and `IOError`), otherwise the parsed value. -/
def load_metadata (fc : FileContent) : Option Json :=
  match fc with
  | FileContent.parsed j => some j
  | _ => none

/-- One run directory of the results root as seen by load_all_results: whether
the path is a directory, its name, and the contents of its metadata.json and
evaluation_results.json. -/
structure RunDir where
  isDir : Bool
  name : String
  metadata : FileContent
  evalFile : FileContent

/-- Effect of processing one run directory: skipped, accepted with its
benchmark key and entry, or a crash (an exception escaping the loop). -/
inductive LoadStep where
  | skip : LoadStep
  | accept (b : String) (e : RunEntry) : LoadStep
  | crash : LoadStep

/-- Per-directory body of load_all_results (analyze_results.py lines 75-110):
non-directories are skipped; missing/unparsable metadata is skipped; falsy
metadata (`if not metadata`) is skipped; a benchmark value that is a string
not in the registry (or a hashable non-string: None/bool/number) gets no
extractor and is skipped; an unhashable benchmark value (list/dict) raises
`TypeError` on the registry lookup, and non-dict truthy metadata raises
`AttributeError` on `.get` — both uncaught; a registered benchmark dispatches
to the extractor, whose None result skips the run and whose summary accepts the
entry built from the metadata `.get` defaults (lines 96-106). -/
def processRunDir (d : RunDir) : LoadStep :=
  if d.isDir then
    match load_metadata d.metadata with
    | none => LoadStep.skip
    | some md =>
      if pyTruthy md then
        match md with
        | Json.obj o =>
          match getD o "benchmark" (Json.str "unknown") with
          | Json.str s =>
            if s ∈ benchmarkKeys then
              match extract_swebench_results d.evalFile with
              | ExtractOutcome.noResult => LoadStep.skip
              | ExtractOutcome.pyError => LoadStep.crash
              | ExtractOutcome.summary sm =>
                LoadStep.accept s
                  ⟨getD o "run_id" (Json.str d.name), getD o "timestamp" (Json.str ""),
                   getD o "contributor" (Json.obj []), getD o "model" (Json.obj []),
                   getD o "inference" (Json.obj []), sweSummaryToJson sm,
                   getD o "dataset" (Json.str ""), d.name⟩
            else LoadStep.skip
          | Json.null => LoadStep.skip
          | Json.bool _ => LoadStep.skip
          | Json.num _ => LoadStep.skip
          | Json.arr _ => LoadStep.crash
          | Json.obj _ => LoadStep.crash
        | _ => LoadStep.crash
      else LoadStep.skip
  else LoadStep.skip

/-- Python-dict insertion-order append: `grouped[b].append(e)` with key
creation on first use (analyze_results.py lines 108-110). -/
def addToGroup (g : Grouped) (b : String) (e : RunEntry) : Grouped :=
  match g with
  | [] => [(b, [e])]
  | (k, l) :: rest =>
    if k = b then (k, l ++ [e]) :: rest else (k, l) :: addToGroup rest b e

/-- Directory loop of load_all_results, accumulating GroupedResults; `none`
models an exception escaping the loop. -/
def loadGo : List RunDir → Grouped → Option Grouped
  | [], acc => some acc
  | d :: rest, acc =>
    match processRunDir d with
    | LoadStep.skip => loadGo rest acc
    | LoadStep.crash => none
    | LoadStep.accept b e => loadGo rest (addToGroup acc b e)

/-- Embedding of load_all_results (analyze_results.py lines 65-112): a missing
results root returns the empty grouping immediately (line 72-73). -/
def load_all_results (rootEx : Bool) (dirs : List RunDir) : Option Grouped :=
  if rootEx then loadGo dirs [] else some []

/-- Export flags of the CLI (analyze_results.py lines 306-323): the optional
output paths of the export-csv, export-json and export-chart options. -/
structure ExportFlags where
  csv : Option String
  json : Option String
  chart : Option String

/-- One export file write performed by main. -/
inductive ExportAction where
  | csv (file : String) : ExportAction
  | jsonFile (file : String) : ExportAction
  | chart (file : String) : ExportAction

/-- Export writes requested by the flags, in the order main performs them
(analyze_results.py lines 345-352). -/
def exportActions (f : ExportFlags) : List ExportAction :=
  (match f.csv with | some p => [ExportAction.csv p] | none => []) ++
  (match f.json with | some p => [ExportAction.jsonFile p] | none => []) ++
  (match f.chart with | some p => [ExportAction.chart p] | none => [])

/-- Observable outcome of main after loading (analyze_results.py lines
334-352): exit code, whether the "No results found" message was printed, and
which export files get written. -/
structure MainResult where
  exitCode : Nat
  printedNoResults : Bool
  exports : List ExportAction

/-- Embedding of main's tail (analyze_results.py lines 336-352): an empty
grouping prints the message and exits 0 (`sys.exit(0)`, line 339) before any
export; otherwise the summary is printed and each requested export file is
written, ending with the normal exit 0. -/
def mainAfterLoad (g : Grouped) (f : ExportFlags) : MainResult :=
  match g with
  | [] => ⟨0, true, []⟩
  | _ :: _ => ⟨0, false, exportActions f⟩

/-- Helper: when every directory is skipped the loader returns its
accumulator. -/
theorem loadGo_all_skip (dirs : List RunDir) (acc : Grouped)
    (h : ∀ d ∈ dirs, processRunDir d = LoadStep.skip) : loadGo dirs acc = some acc := by
  induction dirs with
  | nil => rfl
  | cons d t ih =>
    unfold loadGo
    rw [h d (List.mem_cons_self d t)]
    exact ih (fun d2 hd2 => h d2 (List.mem_cons_of_mem d hd2))

/-- C9: when loading yields no admissible runs — the results root is missing,
empty, or every run directory is skipped — the load result is the empty
grouping, and main prints the "No results found" message and terminates with
exit status 0 writing no export file, whatever export flags were passed. -/
theorem c9_no_results (rootEx : Bool) (dirs : List RunDir) (f : ExportFlags)
    (h : rootEx = false ∨ dirs = [] ∨ ∀ d ∈ dirs, processRunDir d = LoadStep.skip) :
    load_all_results rootEx dirs = some []
    ∧ (mainAfterLoad [] f).exitCode = 0
    ∧ (mainAfterLoad [] f).printedNoResults = true
    ∧ (mainAfterLoad [] f).exports = [] := by
  refine ⟨?_, rfl, rfl, rfl⟩
  rcases h with rfl | rfl | hall
  · rfl
  · cases rootEx <;> rfl
  · unfold load_all_results
    cases rootEx with
    | false => rfl
    | true => exact loadGo_all_skip dirs [] hall

/-- Witness for C9: one non-directory entry in an existing root, with all
three export flags set: load yields the empty grouping, exit 0, message
printed, no exports. -/
theorem c9_no_results_witness :
    load_all_results true [⟨false, "x", FileContent.absent, FileContent.absent⟩] = some []
    ∧ (mainAfterLoad [] ⟨some "o.csv", some "o.json", some "o.png"⟩).exitCode = 0
    ∧ (mainAfterLoad [] ⟨some "o.csv", some "o.json", some "o.png"⟩).printedNoResults = true
    ∧ (mainAfterLoad [] ⟨some "o.csv", some "o.json", some "o.png"⟩).exports = [] :=
  c9_no_results true _ ⟨some "o.csv", some "o.json", some "o.png"⟩
    (Or.inr (Or.inr (fun d hd => by
      rcases List.mem_singleton.mp hd with rfl
      rfl)))

/-- Mirror of Python's `v.get(k, default)` applied to an entry field value.
Python raises `AttributeError` when the receiver is not a dict; entries built
by load_all_results always store objects in the fields this is applied to
(see `processRunDir`), where this total default-returning model agrees with
the source. -/
def objGetD (j : Json) (k : String) (d : Json) : Json :=
  match j with
  | Json.obj o => getD o k d
  | _ => d

/-- Sort key of the summary table (analyze_results.py line 133):
`x["results"].get("rate", 0)`.  A non-numeric stored rate would make Python's
`sorted` raise when compared and is outside every claim; extractor-produced
rates are numeric. -/
def rateOf (r : RunEntry) : ℚ :=
  match objGetD r.results "rate" (Json.num 0) with
  | Json.num q => q
  | _ => 0

/-- Rate-descending stable comparison used by the table display. -/
def entryRateLE (a b : RunEntry) : Bool := decide (rateOf b ≤ rateOf a)

/-- Display of one benchmark table (print_swebench_table, analyze_results.py
lines 127-172): the first component is the row order shown — a rate-descending
sorted COPY of the entry list (line 133 rebinds the local name to
`sorted(results, ...)`, which returns a new list and leaves its argument
unmodified, unlike `list.sort()`) — and the second component is the entry list
as left after the call: unchanged. -/
def printTableRun (rs : List RunEntry) : List RunEntry × List RunEntry :=
  (rs.mergeSort entryRateLE, rs)

/-- Display of the whole summary (print_summary, analyze_results.py lines
175-187): groups are shown in benchmark-name order (`sorted(items())`), each
with its rate-sorted table; the grouped mapping itself is left unchanged. -/
def printSummaryRun (g : Grouped) :
    List (String × List RunEntry) × Grouped :=
  ((List.mergeSort g (fun a b => decide (a.1 ≤ b.1))).map
     (fun p => (p.1, (printTableRun p.2).1)),
   g.map (fun p => (p.1, (printTableRun p.2).2)))

/-- One CSV row (export_csv, analyze_results.py lines 205-216): the ten
columns in source order. -/
def csvRow (b : String) (r : RunEntry) : List Json :=
  [Json.str b, r.run_id, r.timestamp,
   objGetD r.contributor "name" (Json.str ""),
   objGetD r.model "name" (Json.str ""),
   objGetD r.inference "kv_type_k" (Json.str ""),
   objGetD r.inference "kv_type_v" (Json.str ""),
   objGetD r.results "resolved" (Json.num 0),
   objGetD r.results "total" (Json.num 0),
   objGetD r.results "rate" (Json.num 0)]

/-- Rows written by export_csv (analyze_results.py lines 203-216): groups and
entries in insertion order, no sorting. -/
def csvRows (g : Grouped) : List (List Json) :=
  g.flatMap (fun p => p.2.map (fun r => csvRow p.1 r))

/-- Chart entry collection (export_chart, analyze_results.py lines 252-255):
all entries of swe-bench groups, in insertion order. -/
def chartEntries (g : Grouped) : List RunEntry :=
  (g.filter (fun p => p.1.startsWith "swe-bench")).flatMap (fun p => p.2)

/-- Chart label (get_kv_config, analyze_results.py lines 119-124): the two
cache-type tags with default "?".  Tags are strings per the metadata
interface; a non-string tag would render through `str()` and could only
affect the chart's display order, outside every claim. -/
def kvConfigOf (r : RunEntry) : String :=
  let k := match objGetD r.inference "kv_type_k" (Json.str "?") with
    | Json.str s => s
    | _ => "?"
  let v := match objGetD r.inference "kv_type_v" (Json.str "?") with
    | Json.str s => s
    | _ => "?"
  "K:" ++ k ++ "/V:" ++ v

/-- Bar order of the chart (analyze_results.py line 262): a label-sorted COPY
of the collected entries (`sorted`, non-mutating). -/
def chartOrder (rs : List RunEntry) : List RunEntry :=
  rs.mergeSort (fun a b => decide (kvConfigOf a ≤ kvConfigOf b))

/-- Outputs of one main invocation after loading (analyze_results.py lines
341-352) with the grouped value threaded through the display step exactly as
the Python heap state: the displayed tables, then the CSV rows, the JSON
export entries and the chart bar order, each computed from the grouped value
as left by the preceding steps. -/
def mainReport (g : Grouped) (f : ExportFlags) :
    List (String × List RunEntry) × Option (List (List Json))
      × Option (List ExportEntry) × Option (List RunEntry) :=
  let tables := (printSummaryRun g).1
  let g1 := (printSummaryRun g).2
  let csvOut := match f.csv with
    | some _ => some (csvRows g1)
    | none => none
  let jsonOut := match f.json with
    | some _ => some (flattenExport g1)
    | none => none
  let chartOut := match f.chart with
    | some _ => some (chartOrder (chartEntries g1))
    | none => none
  (tables, csvOut, jsonOut, chartOut)

/-- C10: the display steps do not mutate the loaded GroupedResults — the table
and the chart sort fresh copies — so the CSV and JSON exports, although
performed after printing the summary, emit the entries in the original
insertion (directory-iteration) order with their contents unchanged: the CSV
rows are the insertion-order flattening through `csvRow` and the JSON export
entries are the insertion-order `flattenExport` of the grouped value as
loaded, while the displayed tables are rate-sorted copies. -/
theorem c10_display_no_mutation (g : Grouped) (f : ExportFlags) :
    (printSummaryRun g).2 = g
    ∧ (mainReport g f).1 =
        (List.mergeSort g (fun a b => decide (a.1 ≤ b.1))).map
          (fun p => (p.1, List.mergeSort p.2 entryRateLE))
    ∧ (f.csv.isSome →
        (mainReport g f).2.1 = some (g.flatMap (fun p => p.2.map (fun r => csvRow p.1 r))))
    ∧ (f.json.isSome →
        (mainReport g f).2.2.1 = some (flattenExport g))
    ∧ (f.chart.isSome →
        (mainReport g f).2.2.2 = some (chartOrder (chartEntries g))) := by
  have hstate : (printSummaryRun g).2 = g := by
    show g.map (fun p => (p.1, (printTableRun p.2).2)) = g
    simp [printTableRun]
  refine ⟨hstate, rfl, ?_, ?_, ?_⟩
  · intro hc
    show (match f.csv with
      | some _ => some (csvRows (printSummaryRun g).2)
      | none => none) = some (csvRows g)
    cases hcv : f.csv with
    | none => rw [hcv] at hc; exact absurd hc (by simp)
    | some p => rw [hstate]
  · intro hj
    show (match f.json with
      | some _ => some (flattenExport (printSummaryRun g).2)
      | none => none) = some (flattenExport g)
    cases hjv : f.json with
    | none => rw [hjv] at hj; exact absurd hj (by simp)
    | some p => rw [hstate]
  · intro hch
    show (match f.chart with
      | some _ => some (chartOrder (chartEntries (printSummaryRun g).2))
      | none => none) = some (chartOrder (chartEntries g))
    cases hchv : f.chart with
    | none => rw [hchv] at hch; exact absurd hch (by simp)
    | some p => rw [hstate]

/-- Witness for C10 at a one-entry grouping with all export flags set: the CSV
emitted after printing is the insertion-order flattening. -/
theorem c10_display_no_mutation_witness :
    (mainReport [("swe-bench-lite",
        [⟨Json.str "r", Json.str "t", Json.obj [], Json.obj [], Json.obj [],
          Json.obj [], Json.str "", "d"⟩])]
      ⟨some "o.csv", some "o.json", some "o.png"⟩).2.1 =
      some ((([("swe-bench-lite",
          [⟨Json.str "r", Json.str "t", Json.obj [], Json.obj [], Json.obj [],
            Json.obj [], Json.str "", "d"⟩])] : Grouped).flatMap
        (fun p => p.2.map (fun r => csvRow p.1 r)))) :=
  (c10_display_no_mutation _ _).2.2.1 rfl

end Quantuzo
